import Mathlib

/-!
Verification of the exam-session lifecycle engine and grading pipeline of the
ACAD-AI backend (Django/Python), against its natural-language specification.

The Python source is shallowly embedded: pure functions become Lean functions,
Django ORM state becomes explicit record/list state threaded through the
operations, and `transaction.atomic` blocks are modelled by the all-or-nothing
rule that an operation which raises returns the caller-visible state unchanged
(the transaction rolls back).  Machine floats are modelled as exact rationals;
the Python built-in `round(x, 2)` is modelled exactly, including its
round-half-to-even tie rule.  Wall-clock instants are natural numbers; the
comparisons mirror the source (`timezone.now() > expires_at` etc.).
-/

/-- Model of Python `round(x, 2)` on exact rationals: round to the nearest
multiple of 1/100, ties to the even multiple (Python rounds half to even). -/
def pyRound2 (x : ℚ) : ℚ :=
  let y : ℚ := x * 100
  let f : ℤ := ⌊y⌋
  let frac : ℚ := y - f
  if frac < 1/2 then (f : ℚ) / 100
  else if frac > 1/2 then ((f : ℚ) + 1) / 100
  else if f % 2 = 0 then (f : ℚ) / 100 else ((f : ℚ) + 1) / 100

example : pyRound2 (20/3) = 667/100 := by norm_num [pyRound2]
example : pyRound2 0 = 0 := by norm_num [pyRound2]

/-! ## Question data model (src/apps/assessments/models/question.py) -/

inductive QuestionType
  | SHORT_ANSWER
  | ESSAY
  | MULTIPLE_CHOICE
  deriving DecidableEq, Repr

/-- One entry of `Question.options`: a JSON object with label and value. -/
structure OptionEntry where
  label : String
  value : String
  deriving DecidableEq, Repr

/-- The fields of `Question` used by the session engine and the graders. -/
structure QuestionRec where
  id : Nat
  order : Nat
  question_text : String
  question_type : QuestionType
  expected_answer : String
  options : List OptionEntry
  allow_multiple : Bool
  points : ℚ
  deriving DecidableEq, Repr

/-- `Question.get_option_values` (question.py lines 72-76): option values when
the question is MCQ and `options` is non-empty (Python list truthiness). -/
def get_option_values (q : QuestionRec) : List String :=
  if q.question_type = QuestionType.MULTIPLE_CHOICE ∧ q.options ≠ [] then
    q.options.map OptionEntry.value
  else []

/-! ## JSON decoding seam

Both `AnswerService.normalize_answer` and `BaseGradingService._grade_multiple_choice`
run `json.loads(text)` and keep the result only when it is a list; on a decode
failure or a non-list value they fall back to the singleton `[text]`.  The
decode outcome is passed to the embedded functions explicitly: `arr xs` stands
for a successful decode to a JSON array of strings, `notArr` for a decode
failure or a non-list JSON value. -/

inductive DecodedJson
  | arr (xs : List String)
  | notArr
  deriving DecidableEq, Repr

/-- The shared fallback: `answers = json.loads(text) if it is a list else [text]`. -/
def decoded_or_singleton (raw : String) (d : DecodedJson) : List String :=
  match d with
  | DecodedJson.arr xs => xs
  | DecodedJson.notArr => [raw]

/-! ## MCQ grader (src/apps/grading/services/graders/base.py lines 10-62) -/

structure GradeResult where
  score : ℚ
  feedback : String
  deriving DecidableEq, Repr

/-- `BaseGradingService._grade_multiple_choice`.  `student_decoded` and
`expected_decoded` are the `json.loads` outcomes for the two input strings;
the decode is attempted only when `allow_multiple` (lines 19 and 26),
otherwise the raw string is wrapped as a singleton.  Python `set(...)` is
`List.toFinset`. -/
def grade_multiple_choice (answer_text expected_answer : String)
    (student_decoded expected_decoded : DecodedJson)
    (max_points : ℚ) (allow_multiple : Bool) : GradeResult :=
  let student_answers : List String :=
    if allow_multiple then decoded_or_singleton answer_text student_decoded
    else [answer_text]
  let expected_answers : List String :=
    if allow_multiple then decoded_or_singleton expected_answer expected_decoded
    else [expected_answer]
  let student_set : Finset String := student_answers.toFinset
  let expected_set : Finset String := expected_answers.toFinset
  if allow_multiple then
    let correct_selected : ℕ := (student_set ∩ expected_set).card
    let incorrect_selected : ℕ := (student_set \ expected_set).card
    let total_expected : ℕ := expected_set.card
    if total_expected = 0 then
      { score := 0, feedback := "No correct answer defined." }
    else
      let correct_score : ℚ := ((correct_selected : ℚ) / (total_expected : ℚ)) * max_points
      let penalty : ℚ :=
        if incorrect_selected > 0 then
          ((incorrect_selected : ℚ) / (total_expected : ℚ)) * max_points
        else 0
      let final_score : ℚ := pyRound2 (max 0 (correct_score - penalty))
      let feedback : String :=
        if final_score = max_points then "All correct answers selected."
        else if correct_selected > 0 then
          toString correct_selected ++ " out of " ++ toString total_expected ++
            " correct answers selected."
        else "Incorrect answer(s) selected."
      { score := final_score, feedback := feedback }
  else
    if student_set = expected_set then
      { score := max_points, feedback := "Correct answer selected." }
    else
      { score := 0, feedback := "Incorrect answer selected." }

/-- Closed form of the multi-select branch of `_grade_multiple_choice`: with
`S` and `E` the student and expected value sets, the score is the clamped,
rounded proportional formula (and `0` when `E` is empty).  The conditional
penalty of base.py line 44 coincides with the unconditional formula because
the penalty term vanishes when no incorrect value was selected. -/
theorem grade_multiple_choice_multi_formula (raw1 raw2 : String)
    (ss es : List String) (P : ℚ) :
    (grade_multiple_choice raw1 raw2 (DecodedJson.arr ss) (DecodedJson.arr es) P true).score =
      if es.toFinset.card = 0 then 0
      else
        pyRound2 (max 0
          (((ss.toFinset ∩ es.toFinset).card : ℚ) / (es.toFinset.card : ℚ) * P -
           ((ss.toFinset \ es.toFinset).card : ℚ) / (es.toFinset.card : ℚ) * P)) := by
  simp only [grade_multiple_choice, decoded_or_singleton, if_pos rfl, if_true]
  by_cases h0 : es.toFinset.card = 0
  · simp [h0]
  · simp only [h0, if_false]
    by_cases hw : (ss.toFinset \ es.toFinset).card > 0
    · simp [hw, mul_comm]
    · have hw0 : (ss.toFinset \ es.toFinset).card = 0 := by omega
      simp [hw, hw0, mul_comm]

example :
    (grade_multiple_choice "x" "y"
      (DecodedJson.arr ["opt1", "opt4"]) (DecodedJson.arr ["opt1", "opt2", "opt3"])
      10 true).score = 0 := by
  rw [grade_multiple_choice_multi_formula]
  have hn : (["opt1", "opt2", "opt3"] : List String).toFinset.card = 3 := by decide
  have hc : ((["opt1", "opt4"] : List String).toFinset ∩
      (["opt1", "opt2", "opt3"] : List String).toFinset).card = 1 := by decide
  have hw : ((["opt1", "opt4"] : List String).toFinset \
      (["opt1", "opt2", "opt3"] : List String).toFinset).card = 1 := by decide
  rw [hn, hc, hw]
  norm_num [pyRound2]

example :
    (grade_multiple_choice "x" "y"
      (DecodedJson.arr ["opt1", "opt2"]) (DecodedJson.arr ["opt1", "opt2", "opt3"])
      10 true).score = 667/100 := by
  rw [grade_multiple_choice_multi_formula]
  have hn : (["opt1", "opt2", "opt3"] : List String).toFinset.card = 3 := by decide
  have hc : ((["opt1", "opt2"] : List String).toFinset ∩
      (["opt1", "opt2", "opt3"] : List String).toFinset).card = 2 := by decide
  have hw : ((["opt1", "opt2"] : List String).toFinset \
      (["opt1", "opt2", "opt3"] : List String).toFinset).card = 0 := by decide
  rw [hn, hc, hw]
  norm_num [pyRound2]

/-! ## Answer normalization (src/apps/assessments/services/answer_service.py lines 11-40) -/

/-- The stored form of an accepted answer: a plain string (a single decoded
value, or the raw text when the decoded array was empty, or free text
verbatim), or `json.dumps` of the decoded array. -/
inductive NormalizedAnswer
  | plain (s : String)
  | jsonArray (xs : List String)
  deriving DecidableEq, Repr

/-- `AnswerService.normalize_answer`.  `decoded` is the `json.loads(answer_text)`
outcome.  Raises `SubmissionValidationError` (modelled as `Except.error`) when
a decoded entry is not an option value, or when several entries arrive for a
single-select question.  Mirrors the source exactly: no deduplication, no
non-emptiness check; an empty decoded array falls through to
`answers[0] if answers else answer_text`, which returns the raw text. -/
def normalize_answer (q : QuestionRec) (answer_text : String)
    (decoded : DecodedJson) : Except String NormalizedAnswer :=
  if q.question_type = QuestionType.MULTIPLE_CHOICE then
    if (decoded_or_singleton answer_text decoded).any
        (fun a => ¬ (a ∈ get_option_values q)) then
      Except.error "Invalid answer for question"
    else if ¬ q.allow_multiple ∧ (decoded_or_singleton answer_text decoded).length > 1 then
      Except.error "Question only allows a single answer."
    else if q.allow_multiple ∧ (decoded_or_singleton answer_text decoded).length > 1 then
      Except.ok (NormalizedAnswer.jsonArray (decoded_or_singleton answer_text decoded))
    else
      match decoded_or_singleton answer_text decoded with
      | a :: _ => Except.ok (NormalizedAnswer.plain a)
      | [] => Except.ok (NormalizedAnswer.plain answer_text)
  else
    Except.ok (NormalizedAnswer.plain answer_text)

example :
    normalize_answer
      { id := 1, order := 1, question_text := "q", question_type := QuestionType.MULTIPLE_CHOICE,
        expected_answer := "opt1", options := [⟨"A", "opt1"⟩, ⟨"B", "opt2"⟩],
        allow_multiple := true, points := 5 }
      "raw" (DecodedJson.arr ["opt1", "opt1"]) =
    Except.ok (NormalizedAnswer.jsonArray ["opt1", "opt1"]) := rfl

/-! ## Session and token data model
(src/apps/assessments/models/session.py, session_token.py)

Wall-clock instants are naturals.  `is_expired` mirrors session.py line 51:
`timezone.now() > self.expires_at`. -/

structure SessionRow where
  id : Nat
  student_id : Nat
  exam_id : Nat
  started_at : Nat
  expires_at : Nat
  is_completed : Bool
  submitted_at : Option Nat
  submission_type : Option String
  current_question_order : Nat
  deriving DecidableEq, Repr

/-- `ExamSession.is_expired` (session.py lines 49-51). -/
def session_is_expired (s : SessionRow) (now : Nat) : Bool :=
  now > s.expires_at

/-- A `SessionToken` row (session_token.py).  `is_valid` defaults to true on
creation; `id` doubles as the creation sequence number (`created_at` ordering
in the source is row-insertion order). -/
structure TokenRow where
  id : Nat
  session_id : Nat
  token : String
  is_valid : Bool
  created_at : Nat
  invalidated_at : Option Nat
  deriving DecidableEq, Repr

/-! ## check_token_validity
(src/apps/assessments/services/exam_session_service.py lines 141-158)

The database is a token table plus the session join: the `session_id` foreign
key makes `token_obj.session` a total lookup, modelled by `session_of`.
The `token` column is unique, so `find?` returns the row when one exists.
The Python function catches `SessionToken.DoesNotExist` and raises nothing
else; the embedding is total by construction. -/

structure TokenDb where
  tokens : List TokenRow
  session_of : Nat → SessionRow

/-- `SessionToken.objects.get(token=token)` with the unique `token` column. -/
def find_token (db : TokenDb) (t : String) : Option TokenRow :=
  db.tokens.find? (fun r => r.token = t)

/-- `ExamSessionService.check_token_validity`: returns `(is_valid, reason)`,
checking in order: row exists, row still valid, session not completed,
session not expired by the clock. -/
def check_token_validity (db : TokenDb) (now : Nat) (t : String) :
    Bool × Option String :=
  match find_token db t with
  | none => (false, some "invalid_token")
  | some tok =>
    if ¬ tok.is_valid then (false, some "token_expired")
    else if (db.session_of tok.session_id).is_completed then (false, some "session_completed")
    else if session_is_expired (db.session_of tok.session_id) now then (false, some "session_timeout")
    else (true, none)

/-! ## Token lifecycle of one session
(src/apps/assessments/models/session.py lines 64-111,
 src/apps/assessments/services/exam_session_service.py lines 75-101)

State of a single session together with its token rows, newest first (the
model ordering `-created_at`).  `next_token_id` is the insertion sequence. -/

structure SessionTokens where
  session : SessionRow
  tokens : List TokenRow
  next_token_id : Nat
  deriving Repr

/-- `self.tokens.filter(is_valid=True).update(is_valid=False, invalidated_at=now)`
(session.py lines 70-73 and 88-91). -/
def invalidate_valid_tokens (rows : List TokenRow) (now : Nat) : List TokenRow :=
  rows.map (fun r =>
    if r.is_valid then { r with is_valid := false, invalidated_at := some now } else r)

/-- `ExamSession.create_new_token` (session.py lines 80-111): invalidate every
currently valid token of the session, then insert a fresh row with
`is_valid = true`.  The fan-out of `session_expired` events to the old tokens
does not touch the store and is modelled in the event-trace section. -/
def create_new_token (st : SessionTokens) (now : Nat) (tok : String) :
    SessionTokens × TokenRow :=
  let fresh : TokenRow :=
    { id := st.next_token_id, session_id := st.session.id, token := tok,
      is_valid := true, created_at := now, invalidated_at := none }
  ({ session := st.session,
     tokens := fresh :: invalidate_valid_tokens st.tokens now,
     next_token_id := st.next_token_id + 1 }, fresh)

/-- `ExamSession.mark_completed` (session.py lines 64-74): set the completion
fields and invalidate all remaining valid tokens of the session. -/
def mark_completed (st : SessionTokens) (now : Nat) (stype : String) : SessionTokens :=
  { session := { st.session with
      is_completed := true, submitted_at := some now, submission_type := some stype },
    tokens := invalidate_valid_tokens st.tokens now,
    next_token_id := st.next_token_id }

/-- The token-rotating branch of `ExamSessionService.start_or_continue_session`
(exam_session_service.py lines 84-91): a completed session is rejected with
`ValueError` and nothing changes; an active session gets a fresh token. -/
def start_or_continue_rotate (st : SessionTokens) (now : Nat) (tok : String) :
    SessionTokens × Option TokenRow :=
  if st.session.is_completed then (st, none)
  else
    let p := create_new_token st now tok
    (p.1, some p.2)

/-- Number of `SessionToken` rows of the session with `is_valid = true`. -/
def valid_count (st : SessionTokens) : Nat :=
  (st.tokens.filter (fun r => r.is_valid)).length

/-- States reachable for one session from its creation (a fresh session has no
token rows; `start_or_continue_session` immediately issues the first token via
`create_new_token`). -/
inductive ReachableTokens : SessionTokens → Prop
  | init (s : SessionRow) (h : s.is_completed = false) :
      ReachableTokens { session := s, tokens := [], next_token_id := 0 }
  | rotate (st : SessionTokens) (now : Nat) (tok : String) :
      ReachableTokens st → ReachableTokens (start_or_continue_rotate st now tok).1
  | complete (st : SessionTokens) (now : Nat) (stype : String) :
      ReachableTokens st → ReachableTokens (mark_completed st now stype)

theorem filter_invalidate_valid (rows : List TokenRow) (now : Nat) :
    (invalidate_valid_tokens rows now).filter (fun r => r.is_valid) = [] := by
  induction rows with
  | nil => rfl
  | cons r rest ih =>
      by_cases h : r.is_valid <;>
        simp [invalidate_valid_tokens, List.filter, h] <;>
        simpa [invalidate_valid_tokens] using ih

theorem create_new_token_valid_singleton (st : SessionTokens) (now : Nat) (tok : String) :
    ((create_new_token st now tok).1.tokens.filter (fun r => r.is_valid)) =
      [(create_new_token st now tok).2] := by
  simp [create_new_token, List.filter, filter_invalidate_valid]

example :
    valid_count (create_new_token
      { session := { id := 1, student_id := 2, exam_id := 3, started_at := 0,
                     expires_at := 60, is_completed := false, submitted_at := none,
                     submission_type := none, current_question_order := 1 },
        tokens := [], next_token_id := 0 } 5 "tokA").1 = 1 := by
  simp [valid_count, create_new_token_valid_singleton]

/-- Iterated `startOrResume` on one session: each call rotates the token via
`start_or_continue_rotate`; the list carries the clock value and the freshly
minted token string of each call. -/
def rotate_iter (st : SessionTokens) : List (Nat × String) → SessionTokens
  | [] => st
  | p :: rest => rotate_iter (start_or_continue_rotate st p.1 p.2).1 rest

/-- Well-formedness: token ids are below the insertion counter. -/
def ids_bounded (st : SessionTokens) : Prop :=
  ∀ r ∈ st.tokens, r.id < st.next_token_id

theorem invalidate_ids (rows : List TokenRow) (now : Nat) :
    (invalidate_valid_tokens rows now).map (fun r => r.id) =
      rows.map (fun r => r.id) := by
  simp only [invalidate_valid_tokens, List.map_map]
  congr 1
  funext r
  by_cases h : r.is_valid <;> simp [h]

theorem mem_invalidate_id (rows : List TokenRow) (now : Nat) (r2 : TokenRow)
    (h : r2 ∈ invalidate_valid_tokens rows now) :
    ∃ r ∈ rows, r.id = r2.id := by
  have : r2.id ∈ (invalidate_valid_tokens rows now).map (fun r => r.id) :=
    List.mem_map_of_mem _ h
  rw [invalidate_ids] at this
  obtain ⟨r, hr, hid⟩ := List.mem_map.mp this
  exact ⟨r, hr, hid⟩

theorem ids_bounded_create (st : SessionTokens) (now : Nat) (tok : String)
    (h : ids_bounded st) : ids_bounded (create_new_token st now tok).1 := by
  intro r hr
  simp only [create_new_token, List.mem_cons] at hr
  rcases hr with hr | hr
  · subst hr; simp [create_new_token]
  · obtain ⟨r0, hr0, hid⟩ := mem_invalidate_id _ _ _ hr
    have := h r0 hr0
    simp only [create_new_token]
    omega

theorem valid_count_mark_completed (st : SessionTokens) (now : Nat) (stype : String) :
    valid_count (mark_completed st now stype) = 0 := by
  simp [valid_count, mark_completed, filter_invalidate_valid]

theorem rotate_session_eq (st : SessionTokens) (now : Nat) (tok : String) :
    (start_or_continue_rotate st now tok).1.session = st.session := by
  by_cases h : st.session.is_completed <;> simp [start_or_continue_rotate, h, create_new_token]

/-- After one `create_new_token` the fresh row is the unique valid token and
carries the largest id. -/
theorem create_new_token_latest (st : SessionTokens) (now : Nat) (tok : String)
    (hb : ids_bounded st) :
    ∃ r, ((create_new_token st now tok).1.tokens.filter (fun r => r.is_valid)) = [r] ∧
      ∀ r2 ∈ (create_new_token st now tok).1.tokens, r2.id ≤ r.id := by
  refine ⟨(create_new_token st now tok).2, create_new_token_valid_singleton st now tok, ?_⟩
  intro r2 hr2
  simp only [create_new_token, List.mem_cons] at hr2 ⊢
  rcases hr2 with hr2 | hr2
  · subst hr2; exact Nat.le_refl _
  · obtain ⟨r0, hr0, hid⟩ := mem_invalidate_id _ _ _ hr2
    have := hb r0 hr0
    omega

theorem rotate_iter_latest (ks : List (Nat × String)) :
    ∀ st : SessionTokens, st.session.is_completed = false → ids_bounded st → ks ≠ [] →
    ∃ r, ((rotate_iter st ks).tokens.filter (fun r => r.is_valid)) = [r] ∧
      ∀ r2 ∈ (rotate_iter st ks).tokens, r2.id ≤ r.id := by
  induction ks with
  | nil => intro st _ _ hne; exact absurd rfl hne
  | cons p rest ih =>
      intro st hc hb _
      have hstep : (start_or_continue_rotate st p.1 p.2).1 = (create_new_token st p.1 p.2).1 := by
        simp [start_or_continue_rotate, hc]
      rcases rest with _ | ⟨q, rest2⟩
      · simpa [rotate_iter, hstep] using create_new_token_latest st p.1 p.2 hb
      · have hc2 : (create_new_token st p.1 p.2).1.session.is_completed = false := by
          simpa [create_new_token] using hc
        have hb2 : ids_bounded (create_new_token st p.1 p.2).1 := ids_bounded_create st p.1 p.2 hb
        have := ih (create_new_token st p.1 p.2).1 hc2 hb2 (by simp)
        simpa [rotate_iter, hstep] using this

theorem reachable_valid_count_le_one (st : SessionTokens) (h : ReachableTokens st) :
    valid_count st ≤ 1 := by
  induction h with
  | init s hs => simp [valid_count]
  | rotate st now tok _ _ =>
      by_cases hc : st.session.is_completed
      · simpa [start_or_continue_rotate, hc] using ‹valid_count st ≤ 1›
      · have := create_new_token_valid_singleton st now tok
        simp [start_or_continue_rotate, hc, valid_count, this]
  | complete st now stype _ _ => simp [valid_count_mark_completed]

/-! ## Grading state machine
(src/apps/grading/services/grading_service.py,
 src/apps/grading/tasks/session_tasks.py,
 src/apps/assessments/views/question_views.py,
 src/apps/assessments/services/question_service.py)

State of one exam session with its `StudentAnswer` rows and the `GradeHistory`
table restricted to that session (`GradeHistory.session_id` is a plain integer
column).  Histories are kept newest first, matching the model ordering
`-created_at`, so `find?` is `filter(session_id=...).first()`.

`GradingService.grade_session` is decorated `@transaction.atomic`.  The grader
pipeline (`get_grading_service().grade_submission`) is abstracted by its
outcome: `grader_ok` tells whether it returns normally, `total` is the total
score it reports.  When it raises, lines 101-105 set `status = FAILED`, save,
and re-raise as `GradingError`; the exception leaves the atomic block, so the
whole transaction — the `GradeHistory` row, its FAILED update, the
`Submission`/`Answer` rows and any completion — is rolled back: the function
returns the error with the store unchanged. -/

inductive GHStatus
  | PENDING
  | IN_PROGRESS
  | COMPLETED
  | FAILED
  deriving DecidableEq, Repr

structure GradeHistoryRow where
  id : Nat
  session_id : Nat
  status : GHStatus
  grading_method : String
  total_score : ℚ
  max_score : ℚ
  percentage : ℚ
  deriving Repr

/-- A `StudentAnswer` row; `answer_text` is the stored normalized value
(`jsonArray xs` standing for the string `json.dumps(xs)`). -/
structure StudentAnswerRow where
  question_id : Nat
  answer_text : NormalizedAnswer
  answered_at : Nat
  deriving DecidableEq, Repr

structure GState where
  session : SessionRow
  answers : List StudentAnswerRow
  histories : List GradeHistoryRow
  next_history_id : Nat
  deriving Repr

/-- `GradeHistory.calculate_percentage` (grade_history.py lines 44-48). -/
def calculate_percentage (total max_score : ℚ) : ℚ :=
  if max_score = 0 then 0 else pyRound2 (total / max_score * 100)

/-- The session-row part of `ExamSession.mark_completed` (session.py lines
64-74); the token invalidation it also performs lives in the
`SessionTokens` model above. -/
def session_row_mark_completed (s : SessionRow) (now : Nat) (stype : String) : SessionRow :=
  { s with is_completed := true, submitted_at := some now, submission_type := some stype }

/-- `GradeHistory.objects.filter(session_id=sid).first()` under the
`-created_at` ordering (newest first). -/
def find_history (hs : List GradeHistoryRow) (sid : Nat) : Option GradeHistoryRow :=
  hs.find? (fun h => h.session_id = sid)

/-- The body of `grade_session` past the idempotence guard (grading_service.py
lines 23-105): create the history, run the grader, persist COMPLETED and mark
the session completed when it was not; on a grader exception the atomic
transaction rolls back and `GradingError` propagates. -/
def grade_session_run (st : GState) (now : Nat) (grading_method : String)
    (grader_ok : Bool) (total max_score : ℚ) : GState × Except Unit Nat :=
  if grader_ok then
    let gh : GradeHistoryRow :=
      { id := st.next_history_id, session_id := st.session.id,
        status := GHStatus.COMPLETED, grading_method := grading_method,
        total_score := total, max_score := max_score,
        percentage := calculate_percentage total max_score }
    let session2 : SessionRow :=
      if ¬ st.session.is_completed then
        session_row_mark_completed st.session now
          (if grading_method = "expired" then "AUTO_EXPIRED" else "MANUAL")
      else st.session
    ({ session := session2, answers := st.answers,
       histories := gh :: st.histories,
       next_history_id := st.next_history_id + 1 }, Except.ok st.next_history_id)
  else (st, Except.error ())

/-- `GradingService.grade_session` (grading_service.py lines 14-105): the
guard at line 18 returns the existing history only when the session is
completed and `grading_method != 'expired'`. -/
def grade_session (st : GState) (now : Nat) (grading_method : String)
    (grader_ok : Bool) (total max_score : ℚ) : GState × Except Unit Nat :=
  if st.session.is_completed ∧ grading_method ≠ "expired" then
    match find_history st.histories st.session.id with
    | some h => (st, Except.ok h.id)
    | none => grade_session_run st now grading_method grader_ok total max_score
  else grade_session_run st now grading_method grader_ok total max_score

/-- A grading request against the session, as issued by the three entry
points.  `token_ok` abstracts the token checks of `validate_token` that do
not concern the session row (row exists, row valid, right student). -/
inductive GradeRequest
  | manualSubmit (now : Nat) (token_ok : Bool) (grader_ok : Bool) (total : ℚ)
  | expiryTask (now : Nat) (grader_ok : Bool) (total : ℚ)
  | sweeper (now : Nat) (grader_ok : Bool) (total : ℚ)

/-- One grading request.
`manualSubmit` is `SessionSubmitView.post` (question_views.py lines 138-179):
`validate_token` rejects a completed or clock-expired session, otherwise
`grade_session(session, grading_method='manual')` runs; the view catches any
exception, so a rolled-back failure leaves the state unchanged.
`expiryTask` is `schedule_session_expiry` (session_tasks.py lines 11-43):
skip when completed, reschedule when not yet expired, otherwise
`grade_expired_session_now` calls `grade_session(..., 'timeout')`.
`sweeper` is one iteration of `check_expired_sessions` (lines 75-101): the
queryset filter is `is_completed=False AND expires_at <= now`. -/
def gstep (max_score : ℚ) (st : GState) : GradeRequest → GState
  | GradeRequest.manualSubmit now token_ok grader_ok total =>
      if token_ok ∧ ¬ st.session.is_completed ∧ ¬ session_is_expired st.session now then
        (grade_session st now "manual" grader_ok total max_score).1
      else st
  | GradeRequest.expiryTask now grader_ok total =>
      if st.session.is_completed then st
      else if ¬ session_is_expired st.session now then st
      else (grade_session st now "timeout" grader_ok total max_score).1
  | GradeRequest.sweeper now grader_ok total =>
      if ¬ st.session.is_completed ∧ st.session.expires_at ≤ now then
        (grade_session st now "timeout" grader_ok total max_score).1
      else st

def grun (max_score : ℚ) (st : GState) (reqs : List GradeRequest) : GState :=
  reqs.foldl (gstep max_score) st

/-- Number of `GradeHistory` rows recorded for the session. -/
def ghCount (st : GState) : Nat :=
  (st.histories.filter (fun h => h.session_id = st.session.id)).length

/-! ## Session operations used by the public endpoints
(src/apps/assessments/services/question_service.py) -/

/-- `QuestionService.get_question_by_order` (question_service.py lines 12-27):
reject completed, reject expired, else look up the question and persist
`current_question_order`. -/
def get_question_by_order (st : GState) (now : Nat) (questions : List QuestionRec)
    (order : Nat) : GState × Except String QuestionRec :=
  if st.session.is_completed then
    (st, Except.error "This exam session has already been completed.")
  else if session_is_expired st.session now then
    (st, Except.error "This exam session has expired.")
  else
    match questions.find? (fun q => q.order = order) with
    | some q =>
        ({ st with session := { st.session with current_question_order := order } },
         Except.ok q)
    | none => (st, Except.error "Question not found in this exam.")

/-- `StudentAnswer.objects.update_or_create(session=..., question=...,
defaults=answer_text)`; `answered_at` is `auto_now`. -/
def upsert_answer (answers : List StudentAnswerRow) (qid : Nat)
    (val : NormalizedAnswer) (now : Nat) : List StudentAnswerRow :=
  if answers.any (fun a => a.question_id = qid) then
    answers.map (fun a =>
      if a.question_id = qid then { a with answer_text := val, answered_at := now } else a)
  else
    answers ++ [{ question_id := qid, answer_text := val, answered_at := now }]

/-- `QuestionService.submit_single_answer` (question_service.py lines 50-75):
validate text non-empty, reject completed and expired sessions, look up the
question, normalize, upsert. -/
def submit_single_answer (st : GState) (now : Nat) (questions : List QuestionRec)
    (order : Nat) (answer_text : String) (decoded : DecodedJson) :
    GState × Except String StudentAnswerRow :=
  if answer_text = "" then (st, Except.error "Answer text is required.")
  else if st.session.is_completed then
    (st, Except.error "This exam session has already been completed.")
  else if session_is_expired st.session now then
    (st, Except.error "This exam session has expired.")
  else
    match questions.find? (fun q => q.order = order) with
    | none => (st, Except.error "Question not found in this exam.")
    | some q =>
        match normalize_answer q answer_text decoded with
        | Except.error e => (st, Except.error e)
        | Except.ok na =>
            let row : StudentAnswerRow := { question_id := q.id, answer_text := na, answered_at := now }
            ({ st with answers := upsert_answer st.answers q.id na now }, Except.ok row)

/-- `QuestionService.get_session_progress` (question_service.py lines 77-94):
a read-only snapshot; the state is not part of the result type because the
source performs no write. -/
structure Progress where
  total_questions : Nat
  answered_count : Nat
  answered_questions : List Nat
  current_question : Nat
  time_remaining_seconds : Nat
  is_expired : Bool
  deriving DecidableEq, Repr

def get_session_progress (st : GState) (now : Nat) (questions : List QuestionRec) : Progress :=
  { total_questions := questions.length
    answered_count := st.answers.length
    answered_questions :=
      st.answers.filterMap (fun a => (questions.find? (fun q => q.id = a.question_id)).map QuestionRec.order)
    current_question := st.session.current_question_order
    time_remaining_seconds := if session_is_expired st.session now then 0 else st.session.expires_at - now
    is_expired := session_is_expired st.session now }

/-- `ExamSessionService.validate_token` (exam_session_service.py lines
122-139), read-only: token must belong to the student, be valid, and the
session must be neither completed nor clock-expired. -/
def validate_token (db : TokenDb) (now : Nat) (t : String) (student_id : Nat) :
    Except String Nat :=
  match find_token db t with
  | none => Except.error "Invalid session token."
  | some tok =>
    if (db.session_of tok.session_id).student_id ≠ student_id then
      Except.error "Session does not belong to this user."
    else if ¬ tok.is_valid then Except.error "Session token has expired."
    else if (db.session_of tok.session_id).is_completed then
      Except.error "This exam session has already been completed."
    else if session_is_expired (db.session_of tok.session_id) now then
      Except.error "This exam session has expired."
    else Except.ok tok.session_id

/-! ## Event traces of the two submission paths
(src/apps/grading/tasks/session_tasks.py lines 46-72,
 src/apps/assessments/views/question_views.py lines 138-179)

A trace records, in program order, the WebSocket publications and the moment
the grading pipeline runs.  `grade_expired_session_now` publishes
`session_completed` to every notified token and only then calls
`GradingService.grade_session`; `SessionSubmitView.post` calls
`grade_session` synchronously and publishes afterwards, attaching the fresh
`grade_history_id`, and its HTTP response carries the grade data. -/

inductive Effect
  | publish (token : String) (event_type : String) (reason : String)
      (grade_history_id : Option Nat)
  | graderRun (session_id : Nat)
  deriving DecidableEq, Repr

/-- Trace of `grade_expired_session_now(session, tokens)` on its success
path: the `session_completed{reason: timeout}` events carry no grade id and
precede the grading call. -/
def grade_expired_session_now_trace (session_id : Nat) (tokens : List String) :
    List Effect :=
  (tokens.map (fun t => Effect.publish t "session_completed" "timeout" none)) ++
    [Effect.graderRun session_id]

/-- Trace of the success path of `SessionSubmitView.post`: grading runs
first (synchronously, inside the request), then one `session_completed`
event is published to the presented token with the `grade_history_id` of
the freshly created history. -/
def session_submit_view_trace (session_id : Nat) (token : String)
    (grade_history_id : Nat) : List Effect :=
  [Effect.graderRun session_id,
   Effect.publish token "session_completed" "submitted" (some grade_history_id)]

def is_publish : Effect → Bool
  | Effect.publish _ _ _ _ => true
  | Effect.graderRun _ => false

def is_grader_run : Effect → Bool
  | Effect.publish _ _ _ _ => false
  | Effect.graderRun _ => true

def event_grade_id : Effect → Option Nat
  | Effect.publish _ _ _ g => g
  | Effect.graderRun _ => none

/-- The ordering property claimed for every submission path: every
publication precedes every grader run, and no publication carries a grade
history id. -/
def publishes_before_grading (tr : List Effect) : Prop :=
  (∀ i j, (hi : i < tr.length) → (hj : j < tr.length) →
      is_publish tr[i] → is_grader_run tr[j] → i < j) ∧
  (∀ e ∈ tr, is_publish e → event_grade_id e = none)

/-! ## LLM grader retry loop
(src/apps/grading/services/graders/llm_grading.py lines 153-243)

One attempt of the loop of `grade_answer` is abstracted by its observable
outcome: `raisesExc msg` when `_grade_with_openai` (or anything in the try
block) raises, `responds valid score feedback` when a response text comes
back, with `valid` the verdict of `_validate_llm_response` on it and
`(score, feedback)` the value `_parse_llm_response` extracts from the same
text (used both on the valid path and for the lenient parse of line 194). -/

inductive LLMAttempt
  | raisesExc (msg : String)
  | responds (valid : Bool) (score : ℚ) (feedback : String)
  deriving DecidableEq, Repr

inductive GradeAnswerOutcome
  | graded (score : ℚ) (feedback : String)
  | gradingError (msg : String)
  deriving Repr

/-- The retry loop of `LLMGradingService.grade_answer` (lines 173-205) over
the remaining attempts; the second argument is `last_error`.  On a non-final
validation failure the prompt gets the JSON-shape reminder appended and the
loop continues; on the final attempt an invalid response is parsed anyway
(line 194) instead of raising; `GradingError` is raised only when the final
attempt itself raised (line 202). -/
def grade_answer_loop : List LLMAttempt → String → GradeAnswerOutcome
  | [], last_err => GradeAnswerOutcome.gradingError ("LLM grading failed: " ++ last_err)
  | [a], _last_err =>
      match a with
      | LLMAttempt.raisesExc m =>
          GradeAnswerOutcome.gradingError ("LLM grading failed after 3 attempts: " ++ m)
      | LLMAttempt.responds _ s f => GradeAnswerOutcome.graded s f
  | a :: rest, last_err =>
      match a with
      | LLMAttempt.raisesExc m => grade_answer_loop rest m
      | LLMAttempt.responds true s f => GradeAnswerOutcome.graded s f
      | LLMAttempt.responds false _ _ => grade_answer_loop rest last_err

/-- Whether an attempt came back as a response failing
`_validate_llm_response` (the case of line 189, which appends the JSON-shape
reminder to the prompt before retrying). -/
def validation_failed : LLMAttempt → Bool
  | LLMAttempt.responds false _ _ => true
  | _ => false

/-- Whether an attempt returned a response that passes
`_validate_llm_response` — the case of line 180/181, which ends the loop by
returning the parsed response. -/
def returns_valid : LLMAttempt → Bool
  | LLMAttempt.responds true _ _ => true
  | _ => false

/-- Per-attempt prompt state: `reminder_flags atts r` lists, for each attempt,
whether the prompt sent for it carries the appended JSON-shape reminder —
once appended it stays, because line 189 only ever extends the prompt. -/
def reminder_flags : List LLMAttempt → Bool → List Bool
  | [], _ => []
  | a :: rest, r => r :: reminder_flags rest (validation_failed a || r)

/-- The empty-answer test `not answer_text or not answer_text.strip()`
(llm_grading.py line 164): the string is empty or whitespace-only, i.e.
every character is whitespace. -/
def stripped_empty (s : String) : Bool :=
  s.data.all (fun c => c.isWhitespace)

/-- `LLMGradingService.grade_answer` with `max_retries = 3` (line 26): the
guards of lines 164-168 short-circuit empty answers and dispatch MCQ to
`_grade_multiple_choice`; free text enters the retry loop. -/
def llm_grade_answer (answer_text expected_answer : String) (max_points : ℚ)
    (question_type : QuestionType) (allow_multiple : Bool)
    (student_decoded expected_decoded : DecodedJson)
    (a1 a2 a3 : LLMAttempt) : GradeAnswerOutcome :=
  if stripped_empty answer_text then GradeAnswerOutcome.graded 0 "No answer provided."
  else if question_type = QuestionType.MULTIPLE_CHOICE then
    let r := grade_multiple_choice answer_text expected_answer
      student_decoded expected_decoded max_points allow_multiple
    GradeAnswerOutcome.graded r.score r.feedback
  else grade_answer_loop [a1, a2, a3] ""

/-- One answer of a submission as consumed by `grade_submission`. -/
structure LLMAnswerInput where
  answer_id : Nat
  answer_text : String
  expected_answer : String
  points : ℚ
  question_type : QuestionType
  allow_multiple : Bool
  student_decoded : DecodedJson
  expected_decoded : DecodedJson
  a1 : LLMAttempt
  a2 : LLMAttempt
  a3 : LLMAttempt

structure AnswerGradeData where
  answer_id : Nat
  score : ℚ
  feedback : String
  deriving Repr

/-- `LLMGradingService.grade_submission` (lines 207-243): grade each answer;
a per-answer exception is absorbed into score `0` and feedback
`"Grading error: " ++ message` (lines 228-230); the total is rounded and the
status is always GRADED. -/
def llm_grade_submission (answers : List LLMAnswerInput) :
    List AnswerGradeData × ℚ :=
  let datas := answers.map (fun a =>
    match llm_grade_answer a.answer_text a.expected_answer a.points
        a.question_type a.allow_multiple a.student_decoded a.expected_decoded
        a.a1 a.a2 a.a3 with
    | GradeAnswerOutcome.graded s f =>
        { answer_id := a.answer_id, score := s, feedback := f }
    | GradeAnswerOutcome.gradingError m =>
        { answer_id := a.answer_id, score := 0, feedback := "Grading error: " ++ m })
  (datas, pyRound2 (datas.foldl (fun acc d => acc + d.score) 0))

/-! ## Exam immutability guard
(src/apps/assessments/models/exam.py lines 41-48,
 src/apps/assessments/views/admin_exam_views.py,
 src/apps/assessments/views/admin_question_views.py) -/

structure ExamRow where
  id : Nat
  title : String
  duration_minutes : Nat
  is_active : Bool
  deriving DecidableEq, Repr

structure SubmissionRow where
  id : Nat
  exam_id : Nat
  deriving DecidableEq, Repr

/-- `Exam.has_active_sessions` (exam.py lines 41-44): a session of the exam
with `is_completed=False` and `expires_at > now`. -/
def has_active_sessions (sessions : List SessionRow) (exam_id now : Nat) : Bool :=
  sessions.any (fun s => s.exam_id = exam_id ∧ s.is_completed = false ∧ s.expires_at > now)

/-- `Exam.has_submissions` (exam.py lines 46-48). -/
def has_submissions (submissions : List SubmissionRow) (exam_id : Nat) : Bool :=
  submissions.any (fun sb => sb.exam_id = exam_id)

/-- Authoring-side state of one exam. -/
structure AdminState where
  exam : ExamRow
  exam_deleted : Bool
  questions : List QuestionRec
  sessions : List SessionRow
  submissions : List SubmissionRow
  deriving Repr

/-- The guard repeated by every mutating admin endpoint:
`exam.has_active_sessions() or exam.has_submissions()`. -/
def exam_modification_blocked (st : AdminState) (now : Nat) : Bool :=
  has_active_sessions st.sessions st.exam.id now || has_submissions st.submissions st.exam.id

/-- `QuestionService.delete_question_and_reorder` (question_service.py lines
29-42): delete the row, renumber the remaining questions (kept in `order`
order) to the contiguous sequence 1..n, saving only the rows whose order
changes. -/
def delete_question_and_reorder (questions : List QuestionRec) (qid : Nat) :
    List QuestionRec :=
  let remaining := questions.filter (fun q => q.id ≠ qid)
  (remaining.zip (List.range remaining.length)).map
    (fun p => if p.1.order ≠ p.2 + 1 then { p.1 with order := p.2 + 1 } else p.1)

inductive AdminOp
  | updateExam (e : ExamRow)
  | deleteExam
  | createQuestion (q : QuestionRec)
  | updateQuestion (qid : Nat) (q : QuestionRec)
  | deleteQuestion (qid : Nat)

/-- One mutating admin request (admin_exam_views.py `update`,
`partial_update`, `destroy`; admin_question_views.py `perform_create`,
`update`, `partial_update`, `destroy`): each first evaluates the guard and
raises `ExamModificationError` when it fires, leaving the store untouched;
otherwise the mutation applies.  The Bool reports acceptance. -/
def admin_step (st : AdminState) (now : Nat) : AdminOp → AdminState × Bool
  | AdminOp.updateExam e =>
      if exam_modification_blocked st now then (st, false)
      else ({ st with exam := { e with id := st.exam.id } }, true)
  | AdminOp.deleteExam =>
      if exam_modification_blocked st now then (st, false)
      else ({ st with exam_deleted := true }, true)
  | AdminOp.createQuestion q =>
      if exam_modification_blocked st now then (st, false)
      else ({ st with questions := st.questions ++ [q] }, true)
  | AdminOp.updateQuestion qid q =>
      if exam_modification_blocked st now then (st, false)
      else ({ st with questions :=
        st.questions.map (fun x => if x.id = qid then { q with id := qid } else x) }, true)
  | AdminOp.deleteQuestion qid =>
      if exam_modification_blocked st now then (st, false)
      else ({ st with questions := delete_question_and_reorder st.questions qid }, true)

/-! ## Submit-once invariant machinery -/

/-- Inductive invariant for the submit-once property: an uncompleted session
has no grade history, and there is never more than one. -/
def GInv (st : GState) : Prop :=
  (st.session.is_completed = false → ghCount st = 0) ∧ ghCount st ≤ 1

theorem find_history_none_count (hs : List GradeHistoryRow) (sid : Nat)
    (h : find_history hs sid = none) :
    (hs.filter (fun x => x.session_id = sid)).length = 0 := by
  have hall := List.find?_eq_none.mp h
  have : hs.filter (fun x => decide (x.session_id = sid)) = [] :=
    List.filter_eq_nil_iff.mpr (fun a ha => hall a ha)
  simpa using congrArg List.length this

theorem grade_session_run_session_id (st : GState) (now : Nat) (m : String)
    (g : Bool) (t M : ℚ) :
    (grade_session_run st now m g t M).1.session.id = st.session.id := by
  by_cases hg : g <;>
    by_cases hc : st.session.is_completed <;>
      simp [grade_session_run, hg, hc, session_row_mark_completed]

theorem grade_session_run_true (st : GState) (now : Nat) (m : String) (t M : ℚ) :
    (grade_session_run st now m true t M).1.session.is_completed = true ∧
    ghCount (grade_session_run st now m true t M).1 = ghCount st + 1 := by
  by_cases hc : st.session.is_completed <;>
    simp [grade_session_run, session_row_mark_completed, ghCount, hc, List.filter_cons]

theorem grade_session_inv (st : GState) (now : Nat) (m : String) (g : Bool)
    (t M : ℚ) (hm : m ≠ "expired") (h : GInv st) :
    GInv (grade_session st now m g t M).1 := by
  have hrun : ghCount st = 0 → GInv (grade_session_run st now m g t M).1 := by
    intro hcount
    cases g with
    | false => simpa [grade_session_run] using h
    | true =>
        have hr := grade_session_run_true st now m t M
        refine ⟨fun hfc => ?_, ?_⟩
        · rw [hr.1] at hfc
          cases hfc
        · omega
  by_cases hc : st.session.is_completed
  · simp only [grade_session, hc, hm, ne_eq, not_false_iff, true_and, if_pos]
    cases hfind : find_history st.histories st.session.id with
    | some hh => simpa using h
    | none =>
        exact hrun (by simpa [ghCount] using find_history_none_count _ _ hfind)
  · have hguard : ¬ (st.session.is_completed = true ∧ m ≠ "expired") := by
      simp [hc]
    simp only [grade_session, if_neg hguard]
    exact hrun (h.1 (by simpa using hc))

theorem gstep_inv (M : ℚ) (st : GState) (r : GradeRequest) (h : GInv st) :
    GInv (gstep M st r) := by
  cases r with
  | manualSubmit now token_ok grader_ok total =>
      simp only [gstep]
      split
      · exact grade_session_inv st now "manual" grader_ok total M (by decide) h
      · exact h
  | expiryTask now grader_ok total =>
      simp only [gstep]
      split
      · exact h
      · split
        · exact h
        · exact grade_session_inv st now "timeout" grader_ok total M (by decide) h
  | sweeper now grader_ok total =>
      simp only [gstep]
      split
      · exact grade_session_inv st now "timeout" grader_ok total M (by decide) h
      · exact h

theorem grun_inv (M : ℚ) (reqs : List GradeRequest) :
    ∀ st : GState, GInv st → GInv (grun M st reqs) := by
  induction reqs with
  | nil => intro st h; simpa [grun] using h
  | cons r rest ih =>
      intro st h
      have h1 := gstep_inv M st r h
      simpa [grun, List.foldl_cons] using ih (gstep M st r) h1

theorem not_publish_and_run (e : Effect) (h1 : is_publish e) (h2 : is_grader_run e) : False := by
  cases e <;> simp [is_publish, is_grader_run] at h1 h2

theorem publishes_before_append (ms : List Effect) (sid : Nat)
    (hms : ∀ e ∈ ms, is_publish e ∧ event_grade_id e = none) :
    publishes_before_grading (ms ++ [Effect.graderRun sid]) := by
  constructor
  · intro i j hi hj hpub hrun
    have hi2 : i < ms.length + 1 := by simpa using hi
    have hj2 : j < ms.length + 1 := by simpa using hj
    by_cases hjlt : j < ms.length
    · exfalso
      have hgj : (ms ++ [Effect.graderRun sid])[j] = ms[j] := List.getElem_append_left hjlt
      rw [hgj] at hrun
      exact not_publish_and_run _ (hms _ (List.getElem_mem _)).1 hrun
    · by_cases hilt : i < ms.length
      · omega
      · exfalso
        have hieq : i = ms.length := by omega
        have hgi : (ms ++ [Effect.graderRun sid])[i] = Effect.graderRun sid :=
          List.getElem_concat_length ms _ i hieq _
        rw [hgi] at hpub
        exact not_publish_and_run _ hpub (by simp [is_grader_run])
  · intro e he hp
    rw [List.mem_append] at he
    rcases he with he | he
    · exact (hms e he).2
    · simp only [List.mem_singleton] at he
      subst he
      rfl

theorem publishes_before_grading_expired (sid : Nat) (tokens : List String) :
    publishes_before_grading (grade_expired_session_now_trace sid tokens) := by
  apply publishes_before_append
  intro e he
  simp only [List.mem_map] at he
  obtain ⟨t, _, rfl⟩ := he
  exact ⟨rfl, rfl⟩

/-! ## Helper facts about a successful grade_session call -/

theorem grade_session_run_ok2 (st : GState) (now : Nat) (m : String) (t M : ℚ) :
    (grade_session_run st now m true t M).2 = Except.ok st.next_history_id ∧
    (grade_session_run st now m true t M).1.session.is_completed = true ∧
    ∃ hh, find_history (grade_session_run st now m true t M).1.histories
        (grade_session_run st now m true t M).1.session.id = some hh ∧
        hh.id = st.next_history_id := by
  by_cases hc : st.session.is_completed <;>
    simp [grade_session_run, find_history, session_row_mark_completed, hc, List.find?]

theorem grade_session_repeat_of_run (st st2 : GState) (now now2 : Nat) (m m2 : String)
    (g g2 : Bool) (t t2 M M2 : ℚ) (hid : Nat) (hm2 : m2 ≠ "expired")
    (h1 : grade_session_run st now m g t M = (st2, Except.ok hid)) :
    grade_session st2 now2 m2 g2 t2 M2 = (st2, Except.ok hid) := by
  cases g with
  | false =>
      exfalso
      have := congrArg Prod.snd h1
      simp [grade_session_run] at this
  | true =>
      have hfst := congrArg Prod.fst h1
      have hsnd := congrArg Prod.snd h1
      have hok := grade_session_run_ok2 st now m t M
      rw [hok.1] at hsnd
      have hid_eq : st.next_history_id = hid := by
        simpa using hsnd
      obtain ⟨hh, hfind, hh_id⟩ := hok.2.2
      subst hfst
      simp only [grade_session, hok.2.1, hm2, ne_eq, not_false_iff, and_self, if_pos, hfind]
      rw [hh_id, hid_eq]

/-! ## Concrete fixtures used by witnesses and counterexamples -/

def sessionActive : SessionRow :=
  { id := 1, student_id := 2, exam_id := 3, started_at := 0, expires_at := 60,
    is_completed := false, submitted_at := none, submission_type := none,
    current_question_order := 1 }

def sessionDone : SessionRow :=
  { sessionActive with
    is_completed := true
    submitted_at := some 50
    submission_type := some "MANUAL" }

def gsFresh : GState :=
  { session := sessionActive, answers := [], histories := [], next_history_id := 0 }

def gsAnswered : GState :=
  { gsFresh with answers :=
      [{ question_id := 7, answer_text := NormalizedAnswer.plain "opt1", answered_at := 10 }] }

def gsDone : GState :=
  { gsAnswered with session := sessionDone }

/-! ## Claims -/

/-- C1, amended: across any sequence of grading requests issued by the actual
entry points — the manual submit endpoint, the scheduled expiry task and the
periodic sweeper, which call `grade_session` with methods `manual` and
`timeout` — at most one GradeHistory row for the session is ever committed;
and a second direct `grade_session` call with any `grading_method` other than
`expired` after a successful one returns the same GradeHistory id and leaves
the store unchanged.  (The original claim fails only for a repeated call with
`grading_method = 'expired'`, which bypasses the idempotence guard of
grading_service.py line 18; see the counterexample.) -/
theorem grade_session_submit_once :
    (∀ (M : ℚ) (st : GState) (reqs : List GradeRequest),
        st.histories = [] → ghCount (grun M st reqs) ≤ 1) ∧
    (∀ (st st2 : GState) (now now2 : Nat) (m m2 : String) (g g2 : Bool)
        (t t2 M M2 : ℚ) (hid : Nat), m2 ≠ "expired" →
        grade_session st now m g t M = (st2, Except.ok hid) →
        grade_session st2 now2 m2 g2 t2 M2 = (st2, Except.ok hid)) := by
  constructor
  · intro M st reqs h0
    have hinv : GInv st := by
      constructor
      · intro _
        simp [ghCount, h0]
      · simp [ghCount, h0]
    exact (grun_inv M reqs st hinv).2
  · intro st st2 now now2 m m2 g g2 t t2 M M2 hid hm2 h1
    unfold grade_session at h1
    split at h1
    · rename_i hguard
      split at h1
      · rename_i hh hfind
        have h1a : st = st2 := congrArg Prod.fst h1
        have h1b : hh.id = hid := by
          have h2 := congrArg Prod.snd h1
          simpa using h2
        subst h1a
        subst h1b
        unfold grade_session
        rw [if_pos ⟨hguard.1, hm2⟩, hfind]
      · exact grade_session_repeat_of_run st st2 now now2 m m2 g g2 t t2 M M2 hid hm2 h1
    · exact grade_session_repeat_of_run st st2 now now2 m m2 g g2 t t2 M M2 hid hm2 h1

/-- Witness for C1 at concrete inputs: a manual submit followed by a sweeper
run leaves at most one history, and a repeated call after a successful
`manual` grading returns the same id `0`. -/
theorem grade_session_submit_once_witness :
    ghCount (grun 10 gsFresh
      [GradeRequest.manualSubmit 5 true true 10, GradeRequest.sweeper 100 true 10]) ≤ 1 ∧
    grade_session ((grade_session gsFresh 5 "manual" true 10 10).1) 6 "timeout" false 0 10 =
      ((grade_session gsFresh 5 "manual" true 10 10).1, Except.ok 0) := by
  constructor
  · exact grade_session_submit_once.1 10 gsFresh _ rfl
  · exact grade_session_submit_once.2 gsFresh _ 5 6 "manual" "timeout" true false
      10 0 10 10 0 (by decide) rfl

/-- Counterexample to C1 as stated: on a fresh session, two successive
`grade_session` calls with `grading_method = 'expired'` both succeed, return
the distinct ids 0 and 1, and leave two GradeHistory rows for the session —
the guard of grading_service.py line 18 is skipped for this method. -/
theorem grade_session_expired_repeat_counterexample :
    (grade_session gsFresh 5 "expired" true 10 10).2 = Except.ok 0 ∧
    (grade_session (grade_session gsFresh 5 "expired" true 10 10).1
        6 "expired" true 10 10).2 = Except.ok 1 ∧
    ghCount (grade_session (grade_session gsFresh 5 "expired" true 10 10).1
        6 "expired" true 10 10).1 = 2 :=
  ⟨rfl, rfl, rfl⟩

/-- C2, amended: only the automatic-expiry path
(`grade_expired_session_now`) publishes `session_completed` to every notified
token before the grader runs and without a grade history id; the manual
submit endpoint (`SessionSubmitView.post`) instead runs the grading pipeline
first — synchronously, blocking the request — and afterwards publishes a
single `session_completed` carrying the fresh `grade_history_id`. -/
theorem session_completed_publish_order :
    (∀ (sid : Nat) (tokens : List String),
        publishes_before_grading (grade_expired_session_now_trace sid tokens)) ∧
    (∀ (sid : Nat) (tok : String) (hid : Nat) (e : Effect),
        e ∈ session_submit_view_trace sid tok hid → is_publish e = true →
        event_grade_id e = some hid) ∧
    (∀ (sid : Nat) (tok : String) (hid : Nat),
        (session_submit_view_trace sid tok hid).head? = some (Effect.graderRun sid)) := by
  refine ⟨publishes_before_grading_expired, ?_, ?_⟩
  · intro sid tok hid e he hp
    simp only [session_submit_view_trace, List.mem_cons, List.mem_singleton,
      List.not_mem_nil, or_false] at he
    rcases he with rfl | rfl
    · simp [is_publish] at hp
    · rfl
  · intro sid tok hid
    rfl

/-- Witness for C2 at concrete inputs. -/
theorem session_completed_publish_order_witness :
    publishes_before_grading (grade_expired_session_now_trace 1 ["tokA", "tokB"]) ∧
    event_grade_id (Effect.publish "tokA" "session_completed" "submitted" (some 7)) = some 7 := by
  refine ⟨session_completed_publish_order.1 1 ["tokA", "tokB"], ?_⟩
  exact session_completed_publish_order.2.1 1 "tokA" 7 _
    (by simp [session_submit_view_trace]) rfl

/-- Counterexample to C2 as stated: the manual-submit trace violates the
publish-before-grading property — its only publication follows the grader
run and carries `grade_history_id = 7`. -/
theorem session_submit_publish_after_counterexample :
    ¬ publishes_before_grading (session_submit_view_trace 1 "tokA" 7) := by
  intro h
  have h2 := h.2 (Effect.publish "tokA" "session_completed" "submitted" (some 7))
    (by simp [session_submit_view_trace]) rfl
  simp [event_grade_id] at h2

/-- C3: the claim is right about the intended behaviour and the code is
wrong.  `grade_session` is wrapped in `transaction.atomic`; when the grader
raises, the except-handler of grading_service.py lines 101-105 saves
`status = FAILED` and re-raises `GradingError`, but the exception leaving the
atomic block rolls the whole transaction back: no FAILED GradeHistory row
survives, and the completion (performed only at lines 93-96, after successful
grading) never happens either.  The theorem evaluates the embedding: a
failing grading call returns the error with the store exactly as before — no
history row, session not completed. -/
theorem grade_session_failure_rollback :
    (∀ (st : GState) (now : Nat) (m : String) (t M : ℚ),
        (grade_session st now m false t M).1 = st) ∧
    grade_session gsAnswered 5 "manual" false 0 10 = (gsAnswered, Except.error ()) ∧
    (grade_session gsAnswered 5 "manual" false 0 10).1.histories = [] ∧
    (grade_session gsAnswered 5 "manual" false 0 10).1.session.is_completed = false := by
  refine ⟨?_, rfl, rfl, rfl⟩
  intro st now m t M
  unfold grade_session
  split
  · cases hfind : find_history st.histories st.session.id with
    | some hh => simp [hfind]
    | none => simp [hfind, grade_session_run]
  · simp [grade_session_run]

def stTok0 : SessionTokens :=
  { session := sessionActive, tokens := [], next_token_id := 0 }

/-- C4: at most one valid SessionToken per session in every reachable state;
`create_new_token` invalidates all previously valid tokens and leaves exactly
the fresh row valid; `k ≥ 1` startOrResume rotations on an active session
leave exactly one valid token, the most recently created (largest insertion
id); `mark_completed` invalidates every remaining valid token. -/
theorem at_most_one_valid_token :
    (∀ st : SessionTokens, ReachableTokens st → valid_count st ≤ 1) ∧
    (∀ (st : SessionTokens) (now : Nat) (tok : String),
        ((create_new_token st now tok).1.tokens.filter (fun r => r.is_valid)) =
          [(create_new_token st now tok).2]) ∧
    (∀ (st : SessionTokens) (ks : List (Nat × String)),
        st.session.is_completed = false → ids_bounded st → ks ≠ [] →
        ∃ r, ((rotate_iter st ks).tokens.filter (fun x => x.is_valid)) = [r] ∧
          ∀ r2 ∈ (rotate_iter st ks).tokens, r2.id ≤ r.id) ∧
    (∀ (st : SessionTokens) (now : Nat) (stype : String),
        valid_count (mark_completed st now stype) = 0) :=
  ⟨reachable_valid_count_le_one, create_new_token_valid_singleton,
    fun st ks h1 h2 h3 => rotate_iter_latest ks st h1 h2 h3,
    valid_count_mark_completed⟩

/-- Witness for C4 at concrete inputs: the fresh session state is reachable
and holds the invariant; two rotations leave one newest valid token;
completion leaves none. -/
theorem at_most_one_valid_token_witness :
    valid_count stTok0 ≤ 1 ∧
    (∃ r, ((rotate_iter stTok0 [(1, "t1"), (2, "t2")]).tokens.filter (fun x => x.is_valid)) = [r] ∧
      ∀ r2 ∈ (rotate_iter stTok0 [(1, "t1"), (2, "t2")]).tokens, r2.id ≤ r.id) ∧
    valid_count (mark_completed stTok0 3 "MANUAL") = 0 := by
  refine ⟨at_most_one_valid_token.1 stTok0 ?_,
    at_most_one_valid_token.2.2.1 stTok0 [(1, "t1"), (2, "t2")] rfl ?_ (by simp),
    at_most_one_valid_token.2.2.2 stTok0 3 "MANUAL"⟩
  · exact ReachableTokens.init sessionActive rfl
  · intro r hr
    simp [stTok0] at hr

/-- C5: monotonic completion.  For a session row with `is_completed = true`,
the public operations leave the session row and its StudentAnswer rows
untouched: question fetch and answer submission are rejected before any
write (question_service.py lines 15-16 and 55-56), the submit endpoint and
both expiry tasks skip or return the existing history, and even a direct
`grade_session` call never changes the session row or the answers (it may
only append to the separate GradeHistory table).  The progress query,
`check_token_validity` and `validate_token` are read-only by construction
(their embeddings return no state). -/
theorem monotonic_completion :
    ∀ st : GState, st.session.is_completed = true →
      (∀ (now : Nat) (qs : List QuestionRec) (ord : Nat),
          (get_question_by_order st now qs ord).1 = st) ∧
      (∀ (now : Nat) (qs : List QuestionRec) (ord : Nat) (txt : String) (dec : DecodedJson),
          (submit_single_answer st now qs ord txt dec).1 = st) ∧
      (∀ (now : Nat) (m : String) (g : Bool) (t M : ℚ),
          (grade_session st now m g t M).1.session = st.session ∧
          (grade_session st now m g t M).1.answers = st.answers) ∧
      (∀ (M : ℚ) (r : GradeRequest),
          (gstep M st r).session = st.session ∧ (gstep M st r).answers = st.answers) := by
  intro st h
  refine ⟨?_, ?_, ?_, ?_⟩
  · intro now qs ord
    simp [get_question_by_order, h]
  · intro now qs ord txt dec
    by_cases htxt : txt = "" <;> simp [submit_single_answer, htxt, h]
  · intro now m g t M
    constructor <;>
    · unfold grade_session
      split
      · cases hfind : find_history st.histories st.session.id with
        | some hh => simp [hfind]
        | none => cases g <;> simp [hfind, grade_session_run, h]
      · cases g <;> simp [grade_session_run, h]
  · intro M r
    cases r with
    | manualSubmit now token_ok grader_ok total => simp [gstep, h]
    | expiryTask now grader_ok total => simp [gstep, h]
    | sweeper now grader_ok total => simp [gstep, h]

/-- Witness for C5 at a concrete completed state. -/
theorem monotonic_completion_witness :
    (get_question_by_order gsDone 10 [] 1).1 = gsDone ∧
    (submit_single_answer gsDone 10 [] 1 "opt1" DecodedJson.notArr).1 = gsDone ∧
    (gstep 10 gsDone (GradeRequest.expiryTask 100 true 10)).session = gsDone.session := by
  have h := monotonic_completion gsDone rfl
  exact ⟨h.1 10 [] 1, h.2.1 10 [] 1 "opt1" DecodedJson.notArr,
    (h.2.2.2 10 (GradeRequest.expiryTask 100 true 10)).1⟩

/-- C6: multi-select MCQ scoring.  With `S`, `E` the student and expected
value sets, `c = |S ∩ E|`, `w = |S \ E|`, `n = |E|` and points `P`, the score
is `round(max(0, (c/n)P - (w/n)P), 2)`; it is `0` when `n = 0`; and the two
worked examples give `0.00` and `6.67`. -/
theorem mcq_multi_select_scoring :
    (∀ (raw1 raw2 : String) (ss es : List String) (P : ℚ),
        es.toFinset.card ≠ 0 →
        (grade_multiple_choice raw1 raw2 (DecodedJson.arr ss) (DecodedJson.arr es) P true).score =
          pyRound2 (max 0
            (((ss.toFinset ∩ es.toFinset).card : ℚ) / (es.toFinset.card : ℚ) * P -
             ((ss.toFinset \ es.toFinset).card : ℚ) / (es.toFinset.card : ℚ) * P))) ∧
    (∀ (raw1 raw2 : String) (ss es : List String) (P : ℚ),
        es.toFinset.card = 0 →
        (grade_multiple_choice raw1 raw2 (DecodedJson.arr ss) (DecodedJson.arr es) P true).score
          = 0) ∧
    (grade_multiple_choice "x" "y" (DecodedJson.arr ["opt1", "opt4"])
        (DecodedJson.arr ["opt1", "opt2", "opt3"]) 10 true).score = 0 ∧
    (grade_multiple_choice "x" "y" (DecodedJson.arr ["opt1", "opt2"])
        (DecodedJson.arr ["opt1", "opt2", "opt3"]) 10 true).score = 667/100 := by
  refine ⟨?_, ?_, ?_, ?_⟩
  · intro raw1 raw2 ss es P h
    rw [grade_multiple_choice_multi_formula, if_neg h]
  · intro raw1 raw2 ss es P h
    rw [grade_multiple_choice_multi_formula, if_pos h]
  · rw [grade_multiple_choice_multi_formula]
    have hn : (["opt1", "opt2", "opt3"] : List String).toFinset.card = 3 := by decide
    have hc : ((["opt1", "opt4"] : List String).toFinset ∩
        (["opt1", "opt2", "opt3"] : List String).toFinset).card = 1 := by decide
    have hw : ((["opt1", "opt4"] : List String).toFinset \
        (["opt1", "opt2", "opt3"] : List String).toFinset).card = 1 := by decide
    rw [hn, hc, hw]
    norm_num [pyRound2]
  · rw [grade_multiple_choice_multi_formula]
    have hn : (["opt1", "opt2", "opt3"] : List String).toFinset.card = 3 := by decide
    have hc : ((["opt1", "opt2"] : List String).toFinset ∩
        (["opt1", "opt2", "opt3"] : List String).toFinset).card = 2 := by decide
    have hw : ((["opt1", "opt2"] : List String).toFinset \
        (["opt1", "opt2", "opt3"] : List String).toFinset).card = 0 := by decide
    rw [hn, hc, hw]
    norm_num [pyRound2]

/-- Witness for C6: the scoring formula applied at the worked example. -/
theorem mcq_multi_select_scoring_witness :
    (grade_multiple_choice "x" "y" (DecodedJson.arr ["opt1", "opt2"])
        (DecodedJson.arr ["opt1", "opt2", "opt3"]) 10 true).score =
      pyRound2 (max 0
        ((((["opt1", "opt2"] : List String).toFinset ∩
            (["opt1", "opt2", "opt3"] : List String).toFinset).card : ℚ) /
              (((["opt1", "opt2", "opt3"] : List String).toFinset.card : ℚ)) * 10 -
         (((["opt1", "opt2"] : List String).toFinset \
            (["opt1", "opt2", "opt3"] : List String).toFinset).card : ℚ) /
              (((["opt1", "opt2", "opt3"] : List String).toFinset.card : ℚ)) * 10)) :=
  mcq_multi_select_scoring.1 "x" "y" ["opt1", "opt2"] ["opt1", "opt2", "opt3"] 10 (by decide)

def goodInput : LLMAnswerInput :=
  { answer_id := 8, answer_text := "good answer", expected_answer := "exp",
    points := 5, question_type := QuestionType.SHORT_ANSWER,
    allow_multiple := false, student_decoded := DecodedJson.notArr,
    expected_decoded := DecodedJson.notArr,
    a1 := LLMAttempt.responds true 4 "ok",
    a2 := LLMAttempt.responds true 4 "ok",
    a3 := LLMAttempt.responds true 4 "ok" }

def badInput : LLMAnswerInput :=
  { answer_id := 9, answer_text := "hello", expected_answer := "exp",
    points := 5, question_type := QuestionType.SHORT_ANSWER,
    allow_multiple := false, student_decoded := DecodedJson.notArr,
    expected_decoded := DecodedJson.notArr,
    a1 := LLMAttempt.raisesExc "boom1",
    a2 := LLMAttempt.raisesExc "boom2",
    a3 := LLMAttempt.raisesExc "boom3" }

/-- C7, amended: in `LLMGradingService.grade_answer` a validation failure on
a non-final attempt appends the JSON-shape reminder to the prompt and
retries, up to `max_retries = 3` attempts; after a final validation failure
the invalid response is parsed leniently (line 194) and returned instead of
raising; `GradingError` is surfaced exactly when no earlier attempt returned
a valid response and the final attempt itself raised an exception (the
except branch of lines 196-202) — in particular it is raised when all three
attempts raise; and in `grade_submission` a per-answer exception does not
abort the submission: the answer is recorded with score 0 and feedback
`"Grading error: ..."` while every other answer is graded exactly as it
would be on its own.  (The original claim said three validation failures
surface a GradingError; see the counterexample.) -/
theorem llm_grader_failure_behaviour :
    (∀ (m1 m2 m3 : String),
        grade_answer_loop [LLMAttempt.raisesExc m1, LLMAttempt.raisesExc m2,
            LLMAttempt.raisesExc m3] "" =
          GradeAnswerOutcome.gradingError ("LLM grading failed after 3 attempts: " ++ m3)) ∧
    (∀ (s : ℚ) (f : String) (a2 a3 : LLMAttempt),
        grade_answer_loop [LLMAttempt.responds true s f, a2, a3] "" =
          GradeAnswerOutcome.graded s f) ∧
    (∀ (s1 s2 s3 : ℚ) (f1 f2 f3 : String) (v3 : Bool),
        grade_answer_loop [LLMAttempt.responds false s1 f1, LLMAttempt.responds false s2 f2,
            LLMAttempt.responds v3 s3 f3] "" = GradeAnswerOutcome.graded s3 f3) ∧
    (∀ (s1 : ℚ) (f1 : String) (a2 a3 : LLMAttempt),
        reminder_flags [LLMAttempt.responds false s1 f1, a2, a3] false =
          [false, true, true]) ∧
    (∀ (a1 a2 a3 : LLMAttempt),
        (∃ m, grade_answer_loop [a1, a2, a3] "" = GradeAnswerOutcome.gradingError m) ↔
          (returns_valid a1 = false ∧ returns_valid a2 = false ∧
            ∃ m, a3 = LLMAttempt.raisesExc m)) ∧
    (∀ (pre post : List LLMAnswerInput) (bad : LLMAnswerInput) (m1 m2 m3 : String),
        stripped_empty bad.answer_text = false →
        bad.question_type ≠ QuestionType.MULTIPLE_CHOICE →
        bad.a1 = LLMAttempt.raisesExc m1 → bad.a2 = LLMAttempt.raisesExc m2 →
        bad.a3 = LLMAttempt.raisesExc m3 →
        (llm_grade_submission (pre ++ bad :: post)).1 =
          (llm_grade_submission pre).1 ++
            ({ answer_id := bad.answer_id, score := 0,
               feedback := "Grading error: " ++
                 ("LLM grading failed after 3 attempts: " ++ m3) } ::
              (llm_grade_submission post).1)) := by
  refine ⟨fun m1 m2 m3 => rfl, fun s f a2 a3 => rfl, ?_, ?_, ?_, ?_⟩
  · intro s1 s2 s3 f1 f2 f3 v3
    cases v3 <;> rfl
  · intro s1 f1 a2 a3
    simp [reminder_flags, validation_failed]
  · intro a1 a2 a3
    cases a1 with
    | raisesExc m1 =>
        cases a2 with
        | raisesExc m2 => cases a3 <;> simp [grade_answer_loop, returns_valid]
        | responds v2 s2 f2 =>
            cases v2 with
            | false => cases a3 <;> simp [grade_answer_loop, returns_valid]
            | true => simp [grade_answer_loop, returns_valid]
    | responds v1 s1 f1 =>
        cases v1 with
        | false =>
            cases a2 with
            | raisesExc m2 => cases a3 <;> simp [grade_answer_loop, returns_valid]
            | responds v2 s2 f2 =>
                cases v2 with
                | false => cases a3 <;> simp [grade_answer_loop, returns_valid]
                | true => simp [grade_answer_loop, returns_valid]
        | true => simp [grade_answer_loop, returns_valid]
  · intro pre post bad m1 m2 m3 ht hq h1 h2 h3
    have hbad : llm_grade_answer bad.answer_text bad.expected_answer bad.points
        bad.question_type bad.allow_multiple bad.student_decoded bad.expected_decoded
        bad.a1 bad.a2 bad.a3 =
        GradeAnswerOutcome.gradingError ("LLM grading failed after 3 attempts: " ++ m3) := by
      rw [h1, h2, h3]
      unfold llm_grade_answer
      rw [if_neg (by simp [ht]), if_neg hq]
      rfl
    simp only [llm_grade_submission, List.map_append, List.map_cons, hbad]

/-- Witness for C7 at concrete inputs: three exceptions raise the
GradingError; two validation failures followed by a final exception also
surface a GradingError (per the exact characterization); and a submission
containing an all-raising answer still grades the other answer normally. -/
theorem llm_grader_failure_behaviour_witness :
    grade_answer_loop [LLMAttempt.raisesExc "boom1", LLMAttempt.raisesExc "boom2",
        LLMAttempt.raisesExc "boom3"] "" =
      GradeAnswerOutcome.gradingError ("LLM grading failed after 3 attempts: " ++ "boom3") ∧
    (∃ m, grade_answer_loop [LLMAttempt.responds false 3 "fb1",
        LLMAttempt.responds false 4 "fb2", LLMAttempt.raisesExc "boom"] "" =
          GradeAnswerOutcome.gradingError m) ∧
    (llm_grade_submission ([goodInput] ++ badInput :: [])).1 =
      (llm_grade_submission [goodInput]).1 ++
        ({ answer_id := badInput.answer_id, score := 0,
           feedback := "Grading error: " ++
             ("LLM grading failed after 3 attempts: " ++ "boom3") } ::
          (llm_grade_submission ([] : List LLMAnswerInput)).1) := by
  refine ⟨llm_grader_failure_behaviour.1 "boom1" "boom2" "boom3", ?_, ?_⟩
  · exact (llm_grader_failure_behaviour.2.2.2.2.1 (LLMAttempt.responds false 3 "fb1")
      (LLMAttempt.responds false 4 "fb2") (LLMAttempt.raisesExc "boom")).mpr
      ⟨rfl, rfl, "boom", rfl⟩
  · exact llm_grader_failure_behaviour.2.2.2.2.2 [goodInput] [] badInput
      "boom1" "boom2" "boom3" (by decide) (by decide) rfl rfl rfl

/-- Counterexample to C7 as stated: three responses in a row that all fail
JSON validation do not surface a GradingError — the last invalid response is
parsed leniently and its parse result is returned. -/
theorem llm_validation_failures_counterexample :
    grade_answer_loop [LLMAttempt.responds false 3 "fb1", LLMAttempt.responds false 4 "fb2",
        LLMAttempt.responds false 5 "fb3"] "" = GradeAnswerOutcome.graded 5 "fb3" ∧
    ¬ (∃ m, grade_answer_loop [LLMAttempt.responds false 3 "fb1",
        LLMAttempt.responds false 4 "fb2", LLMAttempt.responds false 5 "fb3"] "" =
          GradeAnswerOutcome.gradingError m) := by
  refine ⟨rfl, ?_⟩
  rintro ⟨m, hm⟩
  rw [show grade_answer_loop [LLMAttempt.responds false 3 "fb1",
      LLMAttempt.responds false 4 "fb2", LLMAttempt.responds false 5 "fb3"] "" =
      GradeAnswerOutcome.graded 5 "fb3" from rfl] at hm
  exact GradeAnswerOutcome.noConfusion hm

def qMulti : QuestionRec :=
  { id := 11, order := 1, question_text := "pick all",
    question_type := QuestionType.MULTIPLE_CHOICE, expected_answer := "x",
    options := [⟨"A", "opt1"⟩, ⟨"B", "opt2"⟩, ⟨"C", "opt3"⟩, ⟨"D", "opt4"⟩],
    allow_multiple := true, points := 10 }

/-- C8, amended: `normalize_answer` validates every decoded entry against the
option values and rejects several entries for a single-select question, but
it neither deduplicates nor requires a non-empty array: duplicate entries are
re-encoded verbatim, and an empty decoded array falls through to storing the
raw text unchanged.  A single decoded entry is stored as a plain string,
several (for `allowMultiple`) as the JSON array; free text is stored
verbatim. -/
theorem normalize_answer_behaviour :
    (∀ (q : QuestionRec) (raw : String) (d : DecodedJson),
        q.question_type ≠ QuestionType.MULTIPLE_CHOICE →
        normalize_answer q raw d = Except.ok (NormalizedAnswer.plain raw)) ∧
    (∀ (q : QuestionRec) (raw : String) (xs : List String),
        q.question_type = QuestionType.MULTIPLE_CHOICE →
        (∃ a ∈ xs, a ∉ get_option_values q) →
        ∃ e, normalize_answer q raw (DecodedJson.arr xs) = Except.error e) ∧
    (∀ (q : QuestionRec) (raw : String) (xs : List String),
        q.question_type = QuestionType.MULTIPLE_CHOICE →
        (∀ a ∈ xs, a ∈ get_option_values q) →
        q.allow_multiple = false → xs.length > 1 →
        ∃ e, normalize_answer q raw (DecodedJson.arr xs) = Except.error e) ∧
    (∀ (q : QuestionRec) (raw : String) (xs : List String),
        q.question_type = QuestionType.MULTIPLE_CHOICE →
        (∀ a ∈ xs, a ∈ get_option_values q) →
        q.allow_multiple = true → xs.length > 1 →
        normalize_answer q raw (DecodedJson.arr xs) =
          Except.ok (NormalizedAnswer.jsonArray xs)) ∧
    (∀ (q : QuestionRec) (raw : String) (a : String),
        q.question_type = QuestionType.MULTIPLE_CHOICE →
        a ∈ get_option_values q →
        normalize_answer q raw (DecodedJson.arr [a]) =
          Except.ok (NormalizedAnswer.plain a)) ∧
    (∀ (q : QuestionRec) (raw : String),
        q.question_type = QuestionType.MULTIPLE_CHOICE →
        normalize_answer q raw (DecodedJson.arr []) =
          Except.ok (NormalizedAnswer.plain raw)) := by
  refine ⟨?_, ?_, ?_, ?_, ?_, ?_⟩
  · intro q raw d hq
    simp [normalize_answer, hq]
  · intro q raw xs hq hex
    obtain ⟨a, ha, hna⟩ := hex
    have hany : xs.any (fun a => ¬ (a ∈ get_option_values q)) = true :=
      List.any_eq_true.mpr ⟨a, ha, by simpa using hna⟩
    refine ⟨"Invalid answer for question", ?_⟩
    unfold normalize_answer
    simp only [decoded_or_singleton]
    rw [if_pos hq, if_pos hany]
  · intro q raw xs hq hall hallow hlen
    refine ⟨"Question only allows a single answer.", ?_⟩
    unfold normalize_answer
    simp only [decoded_or_singleton]
    rw [if_pos hq, if_neg (by simpa using hall), if_pos ⟨by simp [hallow], hlen⟩]
  · intro q raw xs hq hall hallow hlen
    unfold normalize_answer
    simp only [decoded_or_singleton]
    rw [if_pos hq, if_neg (by simpa using hall), if_neg (by simp [hallow]),
      if_pos ⟨by simp [hallow], hlen⟩]
  · intro q raw a hq ha
    unfold normalize_answer
    simp [decoded_or_singleton, hq, ha]
  · intro q raw hq
    unfold normalize_answer
    simp [decoded_or_singleton, hq]

/-- Witness for C8 at concrete inputs: two distinct valid values re-encode as
the array, a single valid value is stored plain. -/
theorem normalize_answer_behaviour_witness :
    normalize_answer qMulti "raw" (DecodedJson.arr ["opt1", "opt2"]) =
      Except.ok (NormalizedAnswer.jsonArray ["opt1", "opt2"]) ∧
    normalize_answer qMulti "raw" (DecodedJson.arr ["opt1"]) =
      Except.ok (NormalizedAnswer.plain "opt1") := by
  refine ⟨normalize_answer_behaviour.2.2.2.1 qMulti "raw" ["opt1", "opt2"] rfl
    (by decide) rfl (by decide), ?_⟩
  exact normalize_answer_behaviour.2.2.2.2.1 qMulti "raw" "opt1" rfl (by decide)

/-- Counterexample to C8 as stated: for a multi-select question the decoded
array `["opt1", "opt1"]` is stored with the duplicate kept (the claim says
deduplication would leave the single survivor stored as the plain string
`"opt1"`), and the empty decoded array `[]` is accepted and stored as the
raw text `"[]"` (the claim says it must be rejected with nothing stored). -/
theorem normalize_answer_no_dedupe_counterexample :
    normalize_answer qMulti "[\"opt1\", \"opt1\"]" (DecodedJson.arr ["opt1", "opt1"]) =
      Except.ok (NormalizedAnswer.jsonArray ["opt1", "opt1"]) ∧
    normalize_answer qMulti "[]" (DecodedJson.arr []) =
      Except.ok (NormalizedAnswer.plain "[]") :=
  ⟨rfl, rfl⟩

def examFixture : ExamRow :=
  { id := 3, title := "Old", duration_minutes := 60, is_active := true }

def newExam : ExamRow :=
  { id := 3, title := "New", duration_minutes := 60, is_active := true }

/-- Authoring state with one session that has expired without being
completed or graded: it exists, but `has_active_sessions` ignores it. -/
def adminStExpired : AdminState :=
  { exam := examFixture, exam_deleted := false, questions := [],
    sessions := [sessionActive], submissions := [] }

/-- Authoring state with one genuinely active (not completed, not expired at
`now = 100`) session. -/
def adminStActive : AdminState :=
  { exam := examFixture, exam_deleted := false, questions := [],
    sessions := [{ sessionActive with expires_at := 200 }], submissions := [] }

/-- C9, amended: every mutating authoring operation is rejected — with the
exam and its questions unchanged — exactly when the guard
`exam.has_active_sessions() or exam.has_submissions()` fires, i.e. when the
exam has a session that is neither completed nor past `expires_at`, or has a
Submission row; when the guard does not fire the operation is applied.  (The
original claim said any existing session in any state blocks modification;
an exam whose only session has expired ungraded is still modifiable — see
the counterexample.) -/
theorem exam_immutability_guard :
    ∀ (st : AdminState) (now : Nat) (op : AdminOp),
      (exam_modification_blocked st now = true → admin_step st now op = (st, false)) ∧
      (exam_modification_blocked st now = false → (admin_step st now op).2 = true) := by
  intro st now op
  constructor <;> intro h <;> cases op <;> simp [admin_step, h]

/-- Witness for C9: a blocked state rejects an exam edit unchanged; the
expired-session state accepts it. -/
theorem exam_immutability_guard_witness :
    admin_step adminStActive 100 (AdminOp.updateExam newExam) = (adminStActive, false) ∧
    (admin_step adminStExpired 100 (AdminOp.updateExam newExam)).2 = true := by
  refine ⟨(exam_immutability_guard adminStActive 100 (AdminOp.updateExam newExam)).1 ?_,
    (exam_immutability_guard adminStExpired 100 (AdminOp.updateExam newExam)).2 ?_⟩
  · rfl
  · rfl

/-- Counterexample to C9 as stated: the exam of `adminStExpired` has a
session (expired, ungraded, not completed), yet the exam update is accepted
and changes the title — existence of a session does not make the exam
immutable; only active sessions or submissions do. -/
theorem exam_immutability_counterexample :
    (∃ s ∈ adminStExpired.sessions, s.exam_id = adminStExpired.exam.id) ∧
    (admin_step adminStExpired 100 (AdminOp.updateExam newExam)).2 = true ∧
    (admin_step adminStExpired 100 (AdminOp.updateExam newExam)).1.exam.title = "New" ∧
    adminStExpired.exam.title = "Old" := by
  refine ⟨⟨sessionActive, ?_, rfl⟩, rfl, rfl, rfl⟩
  simp [adminStExpired]

/-- C10: `check_token_validity` is total (the only exception the source can
raise, `SessionToken.DoesNotExist`, is caught) and classifies a token by the
fixed precedence: unknown token, then invalidated token, then completed
session, then clock-expired session, else valid.  In particular the
invalidated-token check precedes the completed-session check, so a
rotated-away token of a completed session reports `token_expired`. -/
theorem check_token_validity_classification :
    ∀ (db : TokenDb) (now : Nat) (t : String),
      (find_token db t = none →
          check_token_validity db now t = (false, some "invalid_token")) ∧
      (∀ tok, find_token db t = some tok → tok.is_valid = false →
          check_token_validity db now t = (false, some "token_expired")) ∧
      (∀ tok, find_token db t = some tok → tok.is_valid = true →
          (db.session_of tok.session_id).is_completed = true →
          check_token_validity db now t = (false, some "session_completed")) ∧
      (∀ tok, find_token db t = some tok → tok.is_valid = true →
          (db.session_of tok.session_id).is_completed = false →
          session_is_expired (db.session_of tok.session_id) now = true →
          check_token_validity db now t = (false, some "session_timeout")) ∧
      (∀ tok, find_token db t = some tok → tok.is_valid = true →
          (db.session_of tok.session_id).is_completed = false →
          session_is_expired (db.session_of tok.session_id) now = false →
          check_token_validity db now t = (true, none)) := by
  intro db now t
  refine ⟨?_, ?_, ?_, ?_, ?_⟩
  · intro h
    simp [check_token_validity, h]
  · intro tok h hv
    simp [check_token_validity, h, hv]
  · intro tok h hv hc
    simp [check_token_validity, h, hv, hc]
  · intro tok h hv hc he
    simp [check_token_validity, h, hv, hc, he]
  · intro tok h hv hc he
    simp [check_token_validity, h, hv, hc, he]

/-- A token row invalidated by a rotation. -/
def tokOldRow : TokenRow :=
  { id := 0
    session_id := 1
    token := "tokOld"
    is_valid := false
    created_at := 0
    invalidated_at := some 5 }

/-- A one-token database whose session is completed but whose token row was
invalidated by a rotation. -/
def dbRotatedDone : TokenDb :=
  { tokens := [tokOldRow], session_of := fun _ => sessionDone }

/-- Witness for C10: the rotated-away token of the completed session reports
`token_expired`, not `session_completed`; an unknown token reports
`invalid_token`. -/
theorem check_token_validity_classification_witness :
    check_token_validity dbRotatedDone 100 "tokOld" = (false, some "token_expired") ∧
    check_token_validity dbRotatedDone 100 "nope" = (false, some "invalid_token") :=
  ⟨(check_token_validity_classification dbRotatedDone 100 "tokOld").2.1 tokOldRow
      (by decide) rfl,
   (check_token_validity_classification dbRotatedDone 100 "nope").1 (by decide)⟩
